import Mathlib

/-!
Shallow embedding of src/App.tsx (redux portion): the two action type
constants, the two reducers, the combined store reducer, and the
state-selection functions of the wrapper variants.

The reducers switch on the string field type of the dispatched action,
so actions are modelled as a record with a type string and an optional
payload record. In the source, dateReducer reads action.payload.date;
when the payload is absent that member access would fail at runtime, so
dateReducer (and the store step built from it) is Option-valued, with
none standing for that failure.
-/

def ADD : String := "ADD"

def DATE : String := "DATE"

/-- Payload record of a DateAction: interface with a single date field. -/
structure DatePayload where
  date : Int
  deriving DecidableEq

/-- A dispatched action: a type tag string and an optional payload record. -/
structure ReduxAction where
  type : String
  payload : Option DatePayload
  deriving DecidableEq

/-- DateState: a date field holding a number or null. -/
structure DateState where
  date : Option Int
  deriving DecidableEq

/-- CounterState: a single count field. -/
structure CounterState where
  count : Int
  deriving DecidableEq

/-- dateReducer from src/App.tsx lines 42-52: on type DATE, spreads the
state and overwrites date with action.payload.date (none when the payload
member access would fail); on any other type returns the state. -/
def dateReducer (state : DateState) (action : ReduxAction) : Option DateState :=
  if action.type = DATE then
    action.payload.map (fun p => { state with date := some p.date })
  else
    some state

/-- counterReducer from src/App.tsx lines 54-67: on type ADD, spreads the
state and overwrites count with count + 1; on any other type returns the
state. -/
def counterReducer (state : CounterState) (action : ReduxAction) : CounterState :=
  if action.type = ADD then
    { state with count := state.count + 1 }
  else
    state

/-- The combined store state: slot counter and slot dates, as in the
reducer map passed to configureStore (src/App.tsx lines 70-75). -/
structure StoreState where
  counter : CounterState
  dates : DateState
  deriving DecidableEq

/-- One dispatch step of the combined store: each slot reducer is applied
to its own slot with the same action. -/
def rootReducer (state : StoreState) (action : ReduxAction) : Option StoreState :=
  (dateReducer state.dates action).map
    (fun d => { counter := counterReducer state.counter action, dates := d })

/-- The store state after initialization: both reducers fall back to
their default parameter values, count 0 and date null. -/
def initialState : StoreState :=
  { counter := { count := 0 }, dates := { date := none } }

/-- Dispatching a sequence of actions in order, from a given state. -/
def dispatchAll (state : StoreState) : List ReduxAction → Option StoreState
  | [] => some state
  | a :: rest => (rootReducer state a).bind (fun s => dispatchAll s rest)

/-- Number of actions of type ADD in a sequence. -/
def countAdds : List ReduxAction → Nat
  | [] => 0
  | a :: rest => (if a.type = ADD then 1 else 0) + countAdds rest

/-- The date value carried by the payload of an action, when present. -/
def ReduxAction.payloadDate (a : ReduxAction) : Option Int :=
  a.payload.map (fun p => p.date)

/-- Last-write-wins combination: the second value when present, else the
first. -/
def applyLast (prev last : Option Int) : Option Int :=
  match last with
  | none => prev
  | some d => some d

/-- The payload date of the most recently dispatched action of type DATE
in a sequence, none when the sequence has no such action (or its payload
is absent). -/
def lastDatePayload : List ReduxAction → Option Int
  | [] => none
  | a :: rest =>
      applyLast (if a.type = DATE then a.payloadDate else none) (lastDatePayload rest)

/-- A fragment of the JavaScript value universe, enough to state what the
untyped (state: any) selection functions return. -/
inductive JSVal where
  | vnull : JSVal
  | vnum (n : Int) : JSVal
  | vobj (fields : List (String × JSVal)) : JSVal

/-- mapStateToPropsBreaking from src/App.tsx line 140: ignores the state
and returns the empty object literal. -/
def mapStateToPropsBreaking (_state : JSVal) : JSVal :=
  JSVal.vobj []

/-- mapStateToPropsNonBlocking2 from src/App.tsx line 153: returns the
object literal with the single shorthand property state. -/
def mapStateToPropsNonBlocking2 (state : JSVal) : JSVal :=
  JSVal.vobj [("state", state)]

/-! Helper lemmas shared by the claim theorems. -/

theorem applyLast_none_left (y : Option Int) : applyLast none y = y := by
  cases y <;> rfl

theorem applyLast_some_absorb (prev : Option Int) (x : Int) (y : Option Int) :
    applyLast prev (applyLast (some x) y) = applyLast (some x) y := by
  cases y <;> rfl

theorem add_ne_date : ADD ≠ DATE := by decide

theorem rootReducer_counter (s : StoreState) (a : ReduxAction) (s' : StoreState)
    (h : rootReducer s a = some s') : s'.counter = counterReducer s.counter a := by
  unfold rootReducer at h
  cases hd : dateReducer s.dates a with
  | none => simp [hd] at h
  | some d =>
      simp [hd] at h
      rw [← h]

theorem rootReducer_dates (s : StoreState) (a : ReduxAction) (s' : StoreState)
    (h : rootReducer s a = some s') : dateReducer s.dates a = some s'.dates := by
  unfold rootReducer at h
  cases hd : dateReducer s.dates a with
  | none => simp [hd] at h
  | some d =>
      simp [hd] at h
      rw [← h]

theorem counterReducer_count (s : CounterState) (a : ReduxAction) :
    (counterReducer s a).count = if a.type = ADD then s.count + 1 else s.count := by
  unfold counterReducer
  split <;> rfl

theorem dispatchAll_count (l : List ReduxAction) :
    ∀ (s s' : StoreState), dispatchAll s l = some s' →
      s'.counter.count = s.counter.count + (countAdds l : Int) := by
  induction l with
  | nil =>
      intro s s' h
      simp [dispatchAll] at h
      simp [← h, countAdds]
  | cons a rest ih =>
      intro s s' h
      simp only [dispatchAll] at h
      cases hr : rootReducer s a with
      | none => simp [hr] at h
      | some s1 =>
          rw [hr, Option.some_bind] at h
          have hcount := ih s1 s' h
          have hc1 : s1.counter = counterReducer s.counter a := rootReducer_counter s a s1 hr
          rw [hcount, hc1, counterReducer_count]
          simp only [countAdds]
          split <;> push_cast <;> ring

theorem dispatchAll_date (l : List ReduxAction) :
    ∀ (s s' : StoreState), dispatchAll s l = some s' →
      s'.dates.date = applyLast s.dates.date (lastDatePayload l) := by
  induction l with
  | nil =>
      intro s s' h
      simp [dispatchAll] at h
      simp [← h, lastDatePayload, applyLast]
  | cons a rest ih =>
      intro s s' h
      simp only [dispatchAll] at h
      cases hr : rootReducer s a with
      | none => simp [hr] at h
      | some s1 =>
          rw [hr, Option.some_bind] at h
          have hdate := ih s1 s' h
          have hd : dateReducer s.dates a = some s1.dates := rootReducer_dates s a s1 hr
          by_cases hty : a.type = DATE
          · unfold dateReducer at hd
            rw [if_pos hty] at hd
            cases hp : a.payload with
            | none => rw [hp] at hd; simp at hd
            | some p =>
                rw [hp, Option.map_some'] at hd
                have hs1 : s1.dates.date = some p.date := by
                  rw [← Option.some_inj.mp hd]
                simp only [lastDatePayload, if_pos hty, ReduxAction.payloadDate, hp,
                  Option.map_some']
                rw [hdate, hs1, applyLast_some_absorb]
          · unfold dateReducer at hd
            rw [if_neg hty] at hd
            have hs1 : s.dates = s1.dates := Option.some_inj.mp hd
            simp only [lastDatePayload, if_neg hty, applyLast_none_left]
            rw [hdate, ← hs1]

theorem date_ne_add : DATE ≠ ADD := by decide

/-! Claim theorems. -/

/-- Claim C1: for every counter state and every action, counterReducer
returns a state whose count is count + 1 when the action type is ADD, and
returns the input state unchanged for every other action type, including
unrecognized ones; it is a total function (its Lean type is not
Option-valued, so totality holds by construction). -/
theorem counterReducer_spec :
    ∀ (s : CounterState) (a : ReduxAction),
      (a.type = ADD → counterReducer s a = { count := s.count + 1 }) ∧
      (a.type ≠ ADD → counterReducer s a = s) := by
  intro s a
  constructor <;> intro h <;> simp [counterReducer, h]

/-- Witness for C1 at concrete inputs: an ADD action on count 5 gives
count 6, and an unrecognized action leaves count 5 unchanged. -/
theorem counterReducer_spec_witness :
    counterReducer { count := 5 } { type := ADD, payload := none } = { count := 6 } ∧
    counterReducer { count := 5 } { type := "RESET", payload := none } = { count := 5 } :=
  ⟨(counterReducer_spec { count := 5 } { type := ADD, payload := none }).1 rfl,
   (counterReducer_spec { count := 5 } { type := "RESET", payload := none }).2 (by decide)⟩

/-- Claim C2: for every date state and every action, dateReducer returns
a state whose date field is the payload date value when the action type
is DATE, and returns the input state unchanged for every other action
type; any integer payload value is accepted without validation. -/
theorem dateReducer_spec :
    ∀ (s : DateState) (a : ReduxAction),
      (a.type ≠ DATE → dateReducer s a = some s) ∧
      (∀ p : DatePayload, a.payload = some p → a.type = DATE →
        dateReducer s a = some { date := some p.date }) := by
  intro s a
  constructor
  · intro h
    simp [dateReducer, h]
  · intro p hp h
    simp [dateReducer, h, hp]

/-- Witness for C2 at concrete inputs: an ADD action leaves the date state
unchanged, and a DATE action with payload 42 sets date to 42. -/
theorem dateReducer_spec_witness :
    dateReducer { date := none } { type := ADD, payload := none } = some { date := none } ∧
    dateReducer { date := none } { type := DATE, payload := some { date := 42 } }
      = some { date := some 42 } :=
  ⟨(dateReducer_spec { date := none } { type := ADD, payload := none }).1 (by decide),
   (dateReducer_spec { date := none } { type := DATE, payload := some { date := 42 } }).2
     { date := 42 } rfl rfl⟩

/-- Claim C3: from the initial store state, after any successfully
dispatched sequence of actions the counter slot count equals the number
of actions of type ADD in the sequence; in particular three ADD
dispatches yield count 3 with the date slot still null. -/
theorem count_tracks_adds :
    (∀ (l : List ReduxAction) (s' : StoreState),
        dispatchAll initialState l = some s' → s'.counter.count = (countAdds l : Int)) ∧
    dispatchAll initialState
        [{ type := ADD, payload := none }, { type := ADD, payload := none },
          { type := ADD, payload := none }]
      = some { counter := { count := 3 }, dates := { date := none } } := by
  constructor
  · intro l s' h
    have hc := dispatchAll_count l initialState s' h
    simpa [initialState] using hc
  · decide

/-- Witness for C3 at a concrete input: after two ADD dispatches the
count reads countAdds of that sequence, which is 2. -/
theorem count_tracks_adds_witness :
    ({ counter := { count := 2 }, dates := { date := none } } : StoreState).counter.count
      = (countAdds [{ type := ADD, payload := none }, { type := ADD, payload := none }] : Int) :=
  count_tracks_adds.1 [{ type := ADD, payload := none }, { type := ADD, payload := none }]
    { counter := { count := 2 }, dates := { date := none } } (by decide)

/-- Claim C4: from the initial store state, after any successfully
dispatched sequence the date slot equals the payload date of the most
recently dispatched DATE action (null when there is none); any ADD
action leaves a date state unchanged; dispatching DATE with payload
1700000000000 makes the date slot read exactly 1700000000000. -/
theorem date_tracks_last_set :
    (∀ (l : List ReduxAction) (s' : StoreState),
        dispatchAll initialState l = some s' → s'.dates.date = lastDatePayload l) ∧
    (∀ (s : DateState) (a : ReduxAction), a.type = ADD → dateReducer s a = some s) ∧
    dispatchAll initialState [{ type := DATE, payload := some { date := 1700000000000 } }]
      = some { counter := { count := 0 }, dates := { date := some 1700000000000 } } := by
  refine ⟨?_, ?_, ?_⟩
  · intro l s' h
    have hd := dispatchAll_date l initialState s' h
    simpa [initialState, applyLast_none_left] using hd
  · intro s a h
    have hne : a.type ≠ DATE := by
      rw [h]
      exact add_ne_date
    simp [dateReducer, hne]
  · decide

/-- Witness for C4 at a concrete input: after one DATE dispatch with
payload 7 the date slot reads lastDatePayload of that sequence. -/
theorem date_tracks_last_set_witness :
    ({ counter := { count := 0 }, dates := { date := some 7 } } : StoreState).dates.date
      = lastDatePayload [{ type := DATE, payload := some { date := 7 } }] :=
  date_tracks_last_set.1 [{ type := DATE, payload := some { date := 7 } }]
    { counter := { count := 0 }, dates := { date := some 7 } } (by decide)

/-- Claim C5: dispatching an action whose type is neither ADD nor DATE
returns the whole combined state unchanged. -/
theorem unknown_action_identity :
    ∀ (s : StoreState) (a : ReduxAction), a.type ≠ ADD → a.type ≠ DATE →
      rootReducer s a = some s := by
  intro s a h1 h2
  simp [rootReducer, dateReducer, counterReducer, h1, h2]

/-- Witness for C5 at a concrete input: an action of unrecognized type
leaves the initial state unchanged. -/
theorem unknown_action_identity_witness :
    rootReducer initialState { type := "NOPE", payload := none } = some initialState :=
  unknown_action_identity initialState { type := "NOPE", payload := none }
    (by decide) (by decide)

/-- Claim C6: the counter count starts at 0, every action either leaves a
counter state unchanged or increments its count by exactly one, and in
every reachable store state the count is nonnegative. -/
theorem count_nonneg_invariant :
    initialState.counter.count = 0 ∧
    (∀ (s : CounterState) (a : ReduxAction),
        counterReducer s a = s ∨ (counterReducer s a).count = s.count + 1) ∧
    (∀ (l : List ReduxAction) (s' : StoreState),
        dispatchAll initialState l = some s' → 0 ≤ s'.counter.count) := by
  refine ⟨rfl, ?_, ?_⟩
  · intro s a
    by_cases h : a.type = ADD
    · right
      rw [counterReducer_count, if_pos h]
    · left
      simp [counterReducer, h]
  · intro l s' h
    have hc := dispatchAll_count l initialState s' h
    simp [initialState] at hc
    omega

/-- Witness for C6 at a concrete input: the state reached by the empty
dispatch sequence has nonnegative count. -/
theorem count_nonneg_invariant_witness :
    (0 : Int)
      ≤ ({ counter := { count := 0 }, dates := { date := none } } : StoreState).counter.count :=
  count_nonneg_invariant.2.2 []
    { counter := { count := 0 }, dates := { date := none } } (by decide)

/-- Claim C7: mapStateToPropsBreaking returns the empty object for every
input state, and its output is the same constant on any two states,
independent of shape and contents. -/
theorem breaking_selects_empty :
    ∀ (s t : JSVal),
      mapStateToPropsBreaking s = JSVal.vobj [] ∧
      mapStateToPropsBreaking s = mapStateToPropsBreaking t := by
  intro s t
  exact ⟨rfl, rfl⟩

/-- Counterexample for C8 as stated: at the concrete state given by the
empty object, the selected view is not the state itself, since the
function wraps the state in a fresh one-field object. -/
theorem nonBlocking2_not_identity :
    mapStateToPropsNonBlocking2 (JSVal.vobj []) ≠ JSVal.vobj [] := by
  simp [mapStateToPropsNonBlocking2]

/-- Claim C8 (amended): mapStateToPropsNonBlocking2 returns, for every
global state s, the object with the single property named state holding
s itself unmodified; consequently two states select equal views exactly
when the states are equal. -/
theorem nonBlocking2_wraps_state :
    ∀ (s t : JSVal),
      mapStateToPropsNonBlocking2 s = JSVal.vobj [("state", s)] ∧
      (mapStateToPropsNonBlocking2 s = mapStateToPropsNonBlocking2 t ↔ s = t) := by
  intro s t
  refine ⟨rfl, ?_⟩
  simp [mapStateToPropsNonBlocking2]

/-- Claim C9: the counter slot is unchanged by a DATE action: the counter
reducer is the identity on DATE-typed actions, and a successful combined
dispatch of a DATE-typed action preserves the counter slot. -/
theorem dateAction_preserves_counter :
    (∀ (s : CounterState) (a : ReduxAction), a.type = DATE → counterReducer s a = s) ∧
    (∀ (st st' : StoreState) (a : ReduxAction), a.type = DATE →
        rootReducer st a = some st' → st'.counter = st.counter) := by
  constructor
  · intro s a h
    have hne : a.type ≠ ADD := by
      rw [h]
      exact date_ne_add
    simp [counterReducer, hne]
  · intro st st' a h hr
    have hc := rootReducer_counter st a st' hr
    have hne : a.type ≠ ADD := by
      rw [h]
      exact date_ne_add
    rw [hc]
    simp [counterReducer, hne]

/-- Witness for C9 at a concrete input: a DATE action leaves count 9
unchanged. -/
theorem dateAction_preserves_counter_witness :
    counterReducer { count := 9 } { type := DATE, payload := some { date := 1 } }
      = { count := 9 } :=
  dateAction_preserves_counter.1 { count := 9 }
    { type := DATE, payload := some { date := 1 } } rfl

/-- Claim C10: an ADD-typed action and a DATE-typed action commute on the
combined store state: dispatching them in either order from any state
yields the same result. -/
theorem add_date_commute :
    ∀ (s : StoreState) (a d : ReduxAction), a.type = ADD → d.type = DATE →
      (rootReducer s a).bind (fun s1 => rootReducer s1 d)
        = (rootReducer s d).bind (fun s1 => rootReducer s1 a) := by
  intro s a d ha hd
  cases hp : d.payload with
  | none => simp [rootReducer, dateReducer, counterReducer, ha, hd, hp, ADD, DATE]
  | some p => simp [rootReducer, dateReducer, counterReducer, ha, hd, hp, ADD, DATE]

/-- Witness for C10 at concrete inputs: from the initial state, ADD then
DATE with payload 3 equals DATE with payload 3 then ADD. -/
theorem add_date_commute_witness :
    (rootReducer initialState { type := ADD, payload := none }).bind
        (fun s1 => rootReducer s1 { type := DATE, payload := some { date := 3 } })
      = (rootReducer initialState { type := DATE, payload := some { date := 3 } }).bind
        (fun s1 => rootReducer s1 { type := ADD, payload := none }) :=
  add_date_commute initialState { type := ADD, payload := none }
    { type := DATE, payload := some { date := 3 } } rfl rfl
